import Mathlib

/-!
Verification of the `riscv-esp32c6` backend of the rtic runtime
(`src/rtic/src/export/riscv_esp32c6.rs`).

The backend manipulates the ESP32-C6 `INTPRI` peripheral: the priority
threshold register `CPU_INT_THRESH`, the four software-interrupt pend
registers `CPU_INTR_FROM_CPU_0..3`, the `CPU_INT_ENABLE`, `CPU_INT_TYPE`
and `CPU_INT_PRI(n)` registers, and the `INTERRUPT_CORE0` interrupt map.

We embed the register file as an explicit state record and translate each
function of the source into a state-passing Lean function.  Besides the
final state, every operation also produces a trace of register events, so
that properties such as "reads the threshold before running the closure"
or "invokes the closure exactly once" are directly observable.  Closures
carry an `ok` flag: `ok = false` models an abnormal exit (a panic that
unwinds out of the closure); the embedding of `lock` propagates it exactly
where the source has no code running after the closure's frame unwinds.

Machine integers are embedded as `Nat` with explicit reductions: the
8-bit `cpu_int_thresh` field write reduces modulo 256, and the 32-bit
register writes in `enable` reduce modulo 2^32, matching the register
widths of the hardware the source writes to.
-/

namespace RiscvEsp32c6

/-- The register state touched by `riscv_esp32c6.rs`: the `INTPRI`
priority threshold, the global interrupt-enable bit (`mstatus.MIE`,
cleared by `critical_section::with`), the four software-interrupt pend
bits, the CPU-interrupt enable/type bitmaps, the per-CPU-interrupt
priority registers, and the `INTERRUPT_CORE0` interrupt-map slots. -/
structure Esp32c6State where
  cpu_int_thresh : Nat
  mie : Bool
  cpu_intr_from_cpu_0 : Bool
  cpu_intr_from_cpu_1 : Bool
  cpu_intr_from_cpu_2 : Bool
  cpu_intr_from_cpu_3 : Bool
  cpu_int_enable : Nat
  cpu_int_type : Nat
  cpu_int_pri : Nat → Nat
  interrupt_map : Nat → Nat

/-- Register events recorded while an operation runs: a read of the
threshold register (with the value read), a write of the threshold
register (with the 8-bit value stored), entry/exit of the global
`critical_section`, and an invocation of the user closure. -/
inductive Ev where
  | readTh : Nat → Ev
  | writeTh : Nat → Ev
  | csAcq : Ev
  | csRel : Ev
  | call : Ev
deriving DecidableEq

/-- Result of running a closure (and of `lock` itself): the protected
resource value, the register state, the returned value, whether the
closure completed normally (`ok = false` models a panic unwinding out of
it), and the trace of register events. -/
structure LockOut (T R : Type) where
  res : T
  st : Esp32c6State
  ret : R
  ok : Bool
  tr : List Ev

/-- `(*INTPRI::ptr()).cpu_int_thresh().read().cpu_int_thresh().bits()`. -/
def readThresh (s : Esp32c6State) : Nat :=
  s.cpu_int_thresh

/-- `(*INTPRI::ptr()).cpu_int_thresh().write(|w| w.cpu_int_thresh().bits(v))`:
the field is 8 bits wide, so the stored value is `v % 256`. -/
def writeThresh (s : Esp32c6State) (v : Nat) : Esp32c6State :=
  { s with cpu_int_thresh := v % 256 }

/-- `lock` from `riscv_esp32c6.rs` lines 59-93.  `ceiling == 15` runs the
closure inside `critical_section::with` (global interrupt disable; the
crate's guard restores `mie` on every exit path).  Otherwise the source
reads the current threshold, writes `ceiling + 1` (u8 arithmetic, hence
`% 256`), runs the closure, and writes the observed value back; the
restoring write is straight-line code after the call, so it executes only
when the closure returns normally (`ok`). -/
def lock {T R : Type} (ceiling : Nat) (f : T → Esp32c6State → LockOut T R)
    (t : T) (s : Esp32c6State) : LockOut T R :=
  if ceiling = 15 then
    let o := f t { s with mie := false }
    { o with st := { o.st with mie := s.mie },
             tr := Ev.csAcq :: Ev.call :: o.tr ++ [Ev.csRel] }
  else
    let current := readThresh s
    let o := f t (writeThresh s ((ceiling + 1) % 256))
    if o.ok then
      { o with st := writeThresh o.st current,
               tr := Ev.readTh current :: Ev.writeTh ((ceiling + 1) % 256) ::
                     Ev.call :: o.tr ++ [Ev.writeTh (current % 256)] }
    else
      { o with tr := Ev.readTh current :: Ev.writeTh ((ceiling + 1) % 256) ::
                     Ev.call :: o.tr }

/-- `run` from `riscv_esp32c6.rs` lines 11-41: at priority 1 it runs the
task body and then writes threshold 1 without any prior read; at any
other priority it reads the threshold, runs the body, and writes the
observed value back. -/
def run (priority : Nat) (f : Esp32c6State → Esp32c6State × List Ev)
    (s : Esp32c6State) : Esp32c6State × List Ev :=
  if priority = 1 then
    let o := f s
    (writeThresh o.1 1, Ev.call :: o.2 ++ [Ev.writeTh 1])
  else
    let initial := readThresh s
    let o := f s
    (writeThresh o.1 initial,
     Ev.readTh initial :: Ev.call :: o.2 ++ [Ev.writeTh (initial % 256)])

/-- The `esp32c6::Interrupt` enum (external PAC crate): the four software
interrupt lines matched by `pend`/`unpend`, and `other n` standing for
every remaining peripheral interrupt source. -/
inductive Interrupt where
  | FROM_CPU_INTR0 : Interrupt
  | FROM_CPU_INTR1 : Interrupt
  | FROM_CPU_INTR2 : Interrupt
  | FROM_CPU_INTR3 : Interrupt
  | other : Nat → Interrupt
deriving DecidableEq

/-- Modelled from the spec: the numeric discriminants (`int as isize`) of
the external PAC `Interrupt` enum are not part of `src/`; the claims never
depend on the concrete values, only on which map slot `enable` writes, so
the four software lines get fixed placeholder codes and `other n` keeps
its code `n`. -/
def interruptNumber : Interrupt → Nat
  | .FROM_CPU_INTR0 => 40
  | .FROM_CPU_INTR1 => 41
  | .FROM_CPU_INTR2 => 42
  | .FROM_CPU_INTR3 => 43
  | .other n => n

/-- `pend` from `riscv_esp32c6.rs` lines 95-119: sets the matching
software-interrupt pend bit; every other interrupt value hits
`panic!("Unsupported software interrupt")`, embedded as `none`. -/
def pend (int : Interrupt) (s : Esp32c6State) : Option Esp32c6State :=
  match int with
  | .FROM_CPU_INTR0 => some { s with cpu_intr_from_cpu_0 := true }
  | .FROM_CPU_INTR1 => some { s with cpu_intr_from_cpu_1 := true }
  | .FROM_CPU_INTR2 => some { s with cpu_intr_from_cpu_2 := true }
  | .FROM_CPU_INTR3 => some { s with cpu_intr_from_cpu_3 := true }
  | .other _ => none

/-- `unpend` from `riscv_esp32c6.rs` lines 121-145: clears the matching
software-interrupt pend bit; every other interrupt value panics (`none`). -/
def unpend (int : Interrupt) (s : Esp32c6State) : Option Esp32c6State :=
  match int with
  | .FROM_CPU_INTR0 => some { s with cpu_intr_from_cpu_0 := false }
  | .FROM_CPU_INTR1 => some { s with cpu_intr_from_cpu_1 := false }
  | .FROM_CPU_INTR2 => some { s with cpu_intr_from_cpu_2 := false }
  | .FROM_CPU_INTR3 => some { s with cpu_intr_from_cpu_3 := false }
  | .other _ => none

/-- `enable` from `riscv_esp32c6.rs` lines 147-175: writes the CPU
interrupt id into the interrupt-map slot of `int`, ORs the CPU
interrupt's bit into `CPU_INT_ENABLE`, writes `prio` into
`CPU_INT_PRI(cpu_int_id)`, and sets the CPU interrupt's bit in
`CPU_INT_TYPE` via `r & !(1 << id) | (1 << id)`; all register writes are
32 bits wide. -/
def enable (int : Interrupt) (prio : Nat) (cpu_int_id : Nat)
    (s : Esp32c6State) : Esp32c6State :=
  let newMap := Function.update s.interrupt_map (interruptNumber int) cpu_int_id
  let s1 := { s with interrupt_map := newMap }
  let s2 := { s1 with cpu_int_enable := ((1 <<< cpu_int_id) ||| s1.cpu_int_enable) % 2 ^ 32 }
  let s3 := { s2 with cpu_int_pri := Function.update s2.cpu_int_pri cpu_int_id prio }
  let newType := ((s3.cpu_int_type &&& ((2 ^ 32 - 1) ^^^ (1 <<< cpu_int_id)))
    ||| (1 <<< cpu_int_id)) % 2 ^ 32
  { s3 with cpu_int_type := newType }

/-- Modelled from the spec: the ESP32-C6 interrupt controller itself is
not in `src/`.  Per the spec's contract ("no task whose priority is ≤
ceiling can run") and the hardware the backend drives, an interrupt at
priority `p` can be dispatched exactly when global interrupts are enabled
and `p` is at least the value of `CPU_INT_THRESH` (priorities strictly
below the threshold are masked). -/
def dispatchable (s : Esp32c6State) (p : Nat) : Bool :=
  s.mie && decide (s.cpu_int_thresh ≤ p)

/-- A probe closure: completes normally, leaves the resource and state
untouched, and returns the register state it was invoked at. -/
def probe : Unit → Esp32c6State → LockOut Unit Esp32c6State :=
  fun _ s => ⟨(), s, s, true, []⟩

/-- The register state `lock` passes to its closure, observed through
`probe` (by `lock_invokes_closure_once_returns_result` the closure runs
exactly once, so the probe's return value is that state). -/
def lockEntryState (ceiling : Nat) (s : Esp32c6State) : Esp32c6State :=
  (lock ceiling probe () s).ret

/-- Recognizer for closure-invocation events. -/
def isCall : Ev → Bool
  | .call => true
  | _ => false

/-- Number of closure invocations recorded in a trace. -/
def callCount (tr : List Ev) : Nat :=
  tr.countP isCall

/-- A concrete initial register state: threshold 1 (the idle value `run`
establishes for priority-1 tasks), interrupts globally enabled, nothing
pended, nothing enabled. -/
def s0 : Esp32c6State where
  cpu_int_thresh := 1
  mie := true
  cpu_intr_from_cpu_0 := false
  cpu_intr_from_cpu_1 := false
  cpu_intr_from_cpu_2 := false
  cpu_intr_from_cpu_3 := false
  cpu_int_enable := 0
  cpu_int_type := 0
  cpu_int_pri := fun _ => 0
  interrupt_map := fun _ => 0

/-- The register state observed inside the critical section of a
ceiling-3 lock nested within the critical section of a ceiling-5 lock,
starting from `s0`. -/
def nestedObserved : Esp32c6State :=
  (lock 5 (fun (t : Unit) s => lock 3 probe t s) () s0).ret

/-- Sequences of interleaved, properly nested lock acquisitions: the
empty sequence, sequential composition, and a completed `lock` at a given
ceiling whose critical section runs a nested sequence. -/
inductive LockProg where
  | skip : LockProg
  | seq : LockProg → LockProg → LockProg
  | lockC : Nat → LockProg → LockProg

/-- Effect of a nested lock sequence on the register state: each `lockC`
runs `lock` with a closure that executes the nested sequence and
completes normally. -/
def execProg : LockProg → Esp32c6State → Esp32c6State
  | .skip, s => s
  | .seq a b, s => execProg b (execProg a s)
  | .lockC c body, s =>
      (lock c (fun (_ : Unit) s' => ⟨(), execProg body s', (), true, []⟩) () s).st

lemma lockEntryState_fifteen (s : Esp32c6State) :
    lockEntryState 15 s = { s with mie := false } := rfl

lemma lockEntryState_of_ne (ceiling : Nat) (s : Esp32c6State)
    (h : ceiling ≠ 15) :
    lockEntryState ceiling s = writeThresh s ((ceiling + 1) % 256) := by
  unfold lockEntryState lock probe
  simp [h]

/-- A closure whose frame unwinds (a panic) before producing a result:
`ok = false`, everything else untouched. -/
def abortingBody : Unit → Esp32c6State → LockOut Unit Unit :=
  fun _ s => ⟨(), s, (), false, []⟩

/-- A closure that returns normally without touching anything. -/
def idBody : Unit → Esp32c6State → LockOut Unit Unit :=
  fun _ s => ⟨(), s, (), true, []⟩

/-- C1: the claim asserts that `lock` compares `ceiling` with the current
threshold, leaves the threshold unchanged when `ceiling` is already ≥ the
threshold, and never lowers the threshold below an already-raised value
during a nested critical section.  The code performs no comparison: with
the threshold already at 3, a ceiling-3 lock runs its closure at
threshold 4 (changed, not unchanged); and starting from `s0` (threshold
1), an outer ceiling-5 lock raises the threshold to 6, yet a ceiling-3
lock nested inside its critical section runs at threshold 4, strictly
below the already-raised value 6. -/
theorem lock_omits_ceiling_comparison :
    (lockEntryState 3 { s0 with cpu_int_thresh := 3 }).cpu_int_thresh = 4
    ∧ (lockEntryState 5 s0).cpu_int_thresh = 6
    ∧ nestedObserved.cpu_int_thresh = 4
    ∧ nestedObserved.cpu_int_thresh < (lockEntryState 5 s0).cpu_int_thresh := by
  refine ⟨rfl, rfl, rfl, ?_⟩
  decide

/-- C2: the claim asserts that while `lock`'s critical section executes,
no task of priority ≤ ceiling can be dispatched until the call returns.
At entry to a ceiling-5 critical section (from `s0`) a priority-5 task is
indeed masked; but when the closure performs a nested ceiling-3 lock —
still inside the outer critical section — the observed register state has
threshold 4 with interrupts globally enabled, so a priority-5 task is
dispatchable before the outer call returns, contradicting the contract. -/
theorem lock_nested_breaks_masking_contract :
    dispatchable (lockEntryState 5 s0) 5 = false
    ∧ dispatchable nestedObserved 5 = true
    ∧ nestedObserved.mie = true := by
  refine ⟨?_, ?_, rfl⟩ <;> decide

/-- C3 counterexample: the claim asserts the threshold is restored on
every exit path, abnormal exits included.  The restoring write at lines
84-92 is straight-line code after the closure call with no unwind guard:
if the closure exits abnormally out of a ceiling-5 lock started at
threshold 1, the final state still holds the raised value 6. -/
theorem lock_no_restore_on_abnormal_exit :
    s0.cpu_int_thresh = 1
    ∧ (lock 5 abortingBody () s0).ok = false
    ∧ (lock 5 abortingBody () s0).st.cpu_int_thresh = 6 := by
  refine ⟨rfl, rfl, ?_⟩
  decide

/-- C3 amended: on normal return of the closure, a `lock` below the
maximum ceiling restores the threshold to the pre-lock value it observed
at entry (reduced to the register's 8-bit width); there is no unwind
guard, so only the normal-return path restores it. -/
theorem lock_restores_threshold_on_normal_return {T R : Type}
    (ceiling : Nat) (f : T → Esp32c6State → LockOut T R) (t : T)
    (s : Esp32c6State) (hne : ceiling ≠ 15)
    (hok : (f t (lockEntryState ceiling s)).ok = true) :
    (lock ceiling f t s).st.cpu_int_thresh = s.cpu_int_thresh % 256 := by
  rw [lockEntryState_of_ne ceiling s hne] at hok
  simp only [writeThresh] at hok
  unfold lock
  rw [if_neg hne]
  simp only [readThresh, writeThresh, hok, if_true]

/-- C3 amended, witness: a normally-returning closure under a ceiling-5
lock from `s0` ends with the threshold restored to `s0`'s value. -/
theorem lock_restores_threshold_on_normal_return_witness :
    (lock 5 idBody () s0).st.cpu_int_thresh = s0.cpu_int_thresh % 256 :=
  lock_restores_threshold_on_normal_return 5 idBody () s0
    (by decide) (by decide)

/-- C6 counterexample: the claim asserts that when a raise is needed,
`lock` sets the threshold to exactly `ceiling`.  From `s0` (threshold 1,
so a raise is needed for ceiling 5), the closure of a ceiling-5 lock runs
with the threshold at 6, not 5. -/
theorem lock_raises_to_ceiling_plus_one_not_ceiling :
    s0.cpu_int_thresh ≤ 5
    ∧ (lockEntryState 5 s0).cpu_int_thresh = 6
    ∧ (lockEntryState 5 s0).cpu_int_thresh ≠ 5 := by
  refine ⟨by decide, rfl, by decide⟩

/-- C6 amended: when `ceiling` is below the maximum level and at least
the current threshold, `lock` sets the threshold to exactly
`ceiling + 1` for the duration of the closure (the value the closure is
invoked at). -/
theorem lock_sets_threshold_ceiling_succ (ceiling : Nat)
    (s : Esp32c6State) (hmax : ceiling < 15)
    (_hneed : s.cpu_int_thresh ≤ ceiling) :
    (lockEntryState ceiling s).cpu_int_thresh = ceiling + 1 := by
  have hne : ceiling ≠ 15 := Nat.ne_of_lt hmax
  rw [lockEntryState_of_ne ceiling s hne]
  show (ceiling + 1) % 256 % 256 = ceiling + 1
  have hlt : ceiling + 1 < 256 := by omega
  rw [Nat.mod_eq_of_lt hlt, Nat.mod_eq_of_lt hlt]

/-- C6 amended, witness: a ceiling-5 lock from `s0` (threshold 1) runs
its closure at threshold 6. -/
theorem lock_sets_threshold_ceiling_succ_witness :
    (lockEntryState 5 s0).cpu_int_thresh = 5 + 1 :=
  lock_sets_threshold_ceiling_succ 5 s0 (by decide) (by decide)

/-- C4: for every sequence of interleaved, properly nested, completed
lock acquisitions (any ceilings, including the global-disable ceiling
15), the priority threshold after the whole sequence equals its value
before the sequence began.  Each `lock` restores the value it observed at
entry, and restoration composes under nesting and sequencing. -/
theorem nested_lock_sequence_roundtrip :
    ∀ (p : LockProg) (s : Esp32c6State), s.cpu_int_thresh < 256 →
      (execProg p s).cpu_int_thresh = s.cpu_int_thresh := by
  intro p
  induction p with
  | skip => intro s _; rfl
  | seq a b iha ihb =>
      intro s h
      have ha := iha s h
      have hb := ihb (execProg a s) (by rw [ha]; exact h)
      show (execProg b (execProg a s)).cpu_int_thresh = s.cpu_int_thresh
      rw [hb, ha]
  | lockC c body ih =>
      intro s h
      by_cases hc : c = 15
      · subst hc
        have hbody := ih { s with mie := false } h
        show (lock 15 (fun (_ : Unit) s' => ⟨(), execProg body s', (), true, []⟩)
          () s).st.cpu_int_thresh = s.cpu_int_thresh
        unfold lock
        rw [if_pos rfl]
        exact hbody
      · show (lock c (fun (_ : Unit) s' => ⟨(), execProg body s', (), true, []⟩)
          () s).st.cpu_int_thresh = s.cpu_int_thresh
        unfold lock
        rw [if_neg hc]
        show (readThresh s) % 256 = s.cpu_int_thresh
        exact Nat.mod_eq_of_lt h

/-- C4 witness: a concrete nested sequence — a ceiling-5 lock whose
critical section performs a ceiling-3 lock followed by a ceiling-15 lock
— leaves the threshold of `s0` unchanged. -/
theorem nested_lock_sequence_roundtrip_witness :
    (execProg (.lockC 5 (.seq (.lockC 3 .skip) (.lockC 15 .skip)))
      s0).cpu_int_thresh = s0.cpu_int_thresh :=
  nested_lock_sequence_roundtrip
    (.lockC 5 (.seq (.lockC 3 .skip) (.lockC 15 .skip))) s0 (by decide)

/-- C5: with `ceiling = 15` (the maximum level), `lock` runs the closure
inside the global interrupts-disabled critical section: the closure is
invoked with `mie` cleared and the threshold untouched, the trace adds
only critical-section entry/exit and the invocation — no threshold reads
or writes — the threshold after the call is whatever the closure left,
and `mie` is restored on exit. -/
theorem lock_max_ceiling_global_cs {T R : Type}
    (f : T → Esp32c6State → LockOut T R) (t : T) (s : Esp32c6State) :
    (lockEntryState 15 s).mie = false
    ∧ (lockEntryState 15 s).cpu_int_thresh = s.cpu_int_thresh
    ∧ (lock 15 f t s).tr
        = Ev.csAcq :: Ev.call :: (f t (lockEntryState 15 s)).tr ++ [Ev.csRel]
    ∧ (lock 15 f t s).st.cpu_int_thresh
        = (f t (lockEntryState 15 s)).st.cpu_int_thresh
    ∧ (lock 15 f t s).st.mie = s.mie :=
  ⟨rfl, rfl, rfl, rfl, rfl⟩

/-- C7: for every ceiling and closure, `lock` invokes the closure exactly
once (the trace records exactly one invocation beyond the closure's own),
passes it the resource together with the entry register state, and
returns the closure's resource and result unchanged. -/
theorem lock_invokes_closure_once_returns_result {T R : Type}
    (ceiling : Nat) (f : T → Esp32c6State → LockOut T R) (t : T)
    (s : Esp32c6State) :
    (lock ceiling f t s).ret = (f t (lockEntryState ceiling s)).ret
    ∧ (lock ceiling f t s).res = (f t (lockEntryState ceiling s)).res
    ∧ callCount (lock ceiling f t s).tr
        = callCount (f t (lockEntryState ceiling s)).tr + 1 := by
  by_cases hc : ceiling = 15
  · subst hc
    refine ⟨rfl, rfl, ?_⟩
    show callCount (Ev.csAcq :: Ev.call ::
      (f t (lockEntryState 15 s)).tr ++ [Ev.csRel]) = _
    simp [callCount, isCall, List.countP_cons, List.countP_append]
  · rw [lockEntryState_of_ne ceiling s hc]
    unfold lock
    rw [if_neg hc]
    cases hok : (f t (writeThresh s ((ceiling + 1) % 256))).ok
    · simp only [hok, Bool.false_eq_true, if_false]
      refine ⟨trivial, trivial, ?_⟩
      simp [callCount, isCall, List.countP_cons]
    · simp only [hok, if_true]
      refine ⟨trivial, trivial, ?_⟩
      simp [callCount, isCall, List.countP_cons, List.countP_append]

/-- C8: `pend` and `unpend` terminate normally exactly on the four
software interrupt lines `FROM_CPU_INTR0..3`, setting (respectively
clearing) precisely that line's pend bit — a single-field update, so
every other line, the threshold, and all remaining registers are
unchanged (the threshold-preservation conjuncts make this explicit) —
and panic (`none`) on every other interrupt value, so under the
precondition that the argument is one of the four lines the panic branch
is unreachable. -/
theorem pend_unpend_soft_lines_only (s : Esp32c6State) :
    pend Interrupt.FROM_CPU_INTR0 s = some { s with cpu_intr_from_cpu_0 := true }
    ∧ pend Interrupt.FROM_CPU_INTR1 s = some { s with cpu_intr_from_cpu_1 := true }
    ∧ pend Interrupt.FROM_CPU_INTR2 s = some { s with cpu_intr_from_cpu_2 := true }
    ∧ pend Interrupt.FROM_CPU_INTR3 s = some { s with cpu_intr_from_cpu_3 := true }
    ∧ unpend Interrupt.FROM_CPU_INTR0 s = some { s with cpu_intr_from_cpu_0 := false }
    ∧ unpend Interrupt.FROM_CPU_INTR1 s = some { s with cpu_intr_from_cpu_1 := false }
    ∧ unpend Interrupt.FROM_CPU_INTR2 s = some { s with cpu_intr_from_cpu_2 := false }
    ∧ unpend Interrupt.FROM_CPU_INTR3 s = some { s with cpu_intr_from_cpu_3 := false }
    ∧ (pend Interrupt.FROM_CPU_INTR0 s).map readThresh = some (readThresh s)
    ∧ (pend Interrupt.FROM_CPU_INTR1 s).map readThresh = some (readThresh s)
    ∧ (pend Interrupt.FROM_CPU_INTR2 s).map readThresh = some (readThresh s)
    ∧ (pend Interrupt.FROM_CPU_INTR3 s).map readThresh = some (readThresh s)
    ∧ (unpend Interrupt.FROM_CPU_INTR0 s).map readThresh = some (readThresh s)
    ∧ (unpend Interrupt.FROM_CPU_INTR1 s).map readThresh = some (readThresh s)
    ∧ (unpend Interrupt.FROM_CPU_INTR2 s).map readThresh = some (readThresh s)
    ∧ (unpend Interrupt.FROM_CPU_INTR3 s).map readThresh = some (readThresh s)
    ∧ (∀ n, pend (Interrupt.other n) s = none)
    ∧ (∀ n, unpend (Interrupt.other n) s = none) :=
  ⟨rfl, rfl, rfl, rfl, rfl, rfl, rfl, rfl, rfl, rfl, rfl, rfl, rfl, rfl,
   rfl, rfl, fun _ => rfl, fun _ => rfl⟩

/-- C9: `run` invokes the task body exactly once for every priority (one
invocation event beyond the body's own).  At priority 1 it performs no
threshold read and unconditionally writes threshold 1 after the body
returns, whatever the threshold held before; at any priority above 1 it
reads the threshold before invoking the body and writes the observed
value back afterwards. -/
theorem run_threshold_discipline (priority : Nat)
    (f : Esp32c6State → Esp32c6State × List Ev) (s : Esp32c6State) :
    (run 1 f s).1.cpu_int_thresh = 1
    ∧ (run 1 f s).2 = Ev.call :: (f s).2 ++ [Ev.writeTh 1]
    ∧ (1 < priority →
        (run priority f s).2
          = Ev.readTh s.cpu_int_thresh :: Ev.call :: (f s).2
              ++ [Ev.writeTh (s.cpu_int_thresh % 256)]
        ∧ (run priority f s).1.cpu_int_thresh = s.cpu_int_thresh % 256)
    ∧ callCount (run priority f s).2 = callCount (f s).2 + 1 := by
  refine ⟨rfl, rfl, ?_, ?_⟩
  · intro hp
    have hne : priority ≠ 1 := by omega
    unfold run
    rw [if_neg hne]
    exact ⟨rfl, rfl⟩
  · by_cases hp : priority = 1
    · subst hp
      show callCount (Ev.call :: (f s).2 ++ [Ev.writeTh 1]) = _
      simp [callCount, isCall, List.countP_cons, List.countP_append]
    · unfold run
      rw [if_neg hp]
      simp [callCount, isCall, List.countP_cons, List.countP_append]

/-- C9 witness: at priority 3 with a body that touches nothing, `run`
from `s0` reads the threshold, invokes the body once, and writes the
observed value back. -/
theorem run_threshold_discipline_witness :
    (run 3 (fun s => (s, [])) s0).2
      = [Ev.readTh s0.cpu_int_thresh, Ev.call,
         Ev.writeTh (s0.cpu_int_thresh % 256)]
    ∧ (run 3 (fun s => (s, [])) s0).1.cpu_int_thresh
      = s0.cpu_int_thresh % 256 := by
  have h := (run_threshold_discipline 3 (fun s => (s, [])) s0).2.2.1 (by decide)
  exact ⟨h.1, h.2⟩

/-- C10: `enable int prio cpu_int_id` writes `cpu_int_id` into the
interrupt-map slot of `int` (other slots unchanged), sets the enable bit
and the type bit of that one CPU interrupt (all other enable and type
bits unchanged), writes `prio` as that CPU interrupt's priority (other
priorities unchanged), and leaves the threshold alone. -/
theorem enable_frame_conditions (int : Interrupt) (prio cpu_int_id : Nat)
    (s : Esp32c6State) (hid : cpu_int_id < 32) :
    (enable int prio cpu_int_id s).interrupt_map (interruptNumber int) = cpu_int_id
    ∧ (∀ m, m ≠ interruptNumber int →
        (enable int prio cpu_int_id s).interrupt_map m = s.interrupt_map m)
    ∧ (enable int prio cpu_int_id s).cpu_int_enable.testBit cpu_int_id = true
    ∧ (∀ j, j < 32 → j ≠ cpu_int_id →
        (enable int prio cpu_int_id s).cpu_int_enable.testBit j
          = s.cpu_int_enable.testBit j)
    ∧ (enable int prio cpu_int_id s).cpu_int_type.testBit cpu_int_id = true
    ∧ (∀ j, j < 32 → j ≠ cpu_int_id →
        (enable int prio cpu_int_id s).cpu_int_type.testBit j
          = s.cpu_int_type.testBit j)
    ∧ (enable int prio cpu_int_id s).cpu_int_pri cpu_int_id = prio
    ∧ (∀ j, j ≠ cpu_int_id →
        (enable int prio cpu_int_id s).cpu_int_pri j = s.cpu_int_pri j)
    ∧ (enable int prio cpu_int_id s).cpu_int_thresh = s.cpu_int_thresh := by
  simp only [enable]
  refine ⟨Function.update_same _ _ _, ?_, ?_, ?_, ?_, ?_,
    Function.update_same _ _ _, ?_, trivial⟩
  · intro m hm
    exact Function.update_noteq hm _ _
  · rw [Nat.testBit_mod_two_pow, Nat.one_shiftLeft, Nat.testBit_lor,
      Nat.testBit_two_pow_self]
    simp [hid]
  · intro j hj hne
    rw [Nat.testBit_mod_two_pow, Nat.one_shiftLeft, Nat.testBit_lor,
      Nat.testBit_two_pow_of_ne (Ne.symm hne)]
    simp [hj]
  · rw [Nat.testBit_mod_two_pow, Nat.one_shiftLeft, Nat.testBit_lor,
      Nat.testBit_two_pow_self]
    simp [hid]
  · intro j hj hne
    rw [Nat.testBit_mod_two_pow, Nat.one_shiftLeft, Nat.testBit_lor,
      Nat.testBit_land, Nat.testBit_xor,
      Nat.testBit_two_pow_sub_one, Nat.testBit_two_pow_of_ne (Ne.symm hne)]
    simp [hj]
  · intro j hne
    exact Function.update_noteq hne _ _

/-- C10 witness: enabling `FROM_CPU_INTR0` at priority 3 on CPU
interrupt 5 from `s0` sets enable bit 5, type bit 5, priority 5 to 3,
maps the interrupt's slot to 5, and leaves bit 7, priority 7 and the
threshold as in `s0`. -/
theorem enable_frame_conditions_witness :
    (enable Interrupt.FROM_CPU_INTR0 3 5 s0).interrupt_map
        (interruptNumber Interrupt.FROM_CPU_INTR0) = 5
    ∧ (enable Interrupt.FROM_CPU_INTR0 3 5 s0).cpu_int_enable.testBit 5 = true
    ∧ (enable Interrupt.FROM_CPU_INTR0 3 5 s0).cpu_int_enable.testBit 7
        = s0.cpu_int_enable.testBit 7
    ∧ (enable Interrupt.FROM_CPU_INTR0 3 5 s0).cpu_int_type.testBit 5 = true
    ∧ (enable Interrupt.FROM_CPU_INTR0 3 5 s0).cpu_int_pri 5 = 3
    ∧ (enable Interrupt.FROM_CPU_INTR0 3 5 s0).cpu_int_pri 7 = s0.cpu_int_pri 7
    ∧ (enable Interrupt.FROM_CPU_INTR0 3 5 s0).cpu_int_thresh
        = s0.cpu_int_thresh := by
  have h := enable_frame_conditions Interrupt.FROM_CPU_INTR0 3 5 s0 (by decide)
  exact ⟨h.1, h.2.2.1, h.2.2.2.1 7 (by decide) (by decide), h.2.2.2.2.1,
    h.2.2.2.2.2.2.1, h.2.2.2.2.2.2.2.1 7 (by decide), h.2.2.2.2.2.2.2.2⟩

end RiscvEsp32c6
